/-
Verification of the nova-shop-desk natural-language command layer.

The development shallowly embeds the rule-based command parser
(src/lib/commandParser.ts), the AI-agent utilities (utils.ts, config.ts),
the element scanner (DomObserver.ts), the action validator (Executor.ts)
and the navigation loop controller (useNavigator.ts).

Strings are modelled as lists of Unicode code points (List Nat); the
JavaScript operations used by the source (toLowerCase, trim, includes,
String.replace with a plain-string pattern, split-free substring work,
substring truncation) are modelled over the ASCII range, which covers
every keyword table and every input exercised by the claims.
-/
import Mathlib

/-- A JavaScript string, as its list of code points. -/
abbrev Str := List Nat

/-- Code points of a Lean string literal. -/
def str (s : String) : Str := s.data.map Char.toNat

/-- ASCII fragment of the JavaScript whitespace class used by trim and the
regular-expression class backslash-s. -/
def jsWs (n : Nat) : Bool := n = 32 || n = 9 || n = 10 || n = 13 || n = 11 || n = 12

/-- Code points matched by the regular-expression dot (not a line terminator),
over ASCII. -/
def nonNL (n : Nat) : Bool := !(n = 10 || n = 13)

/-- JavaScript toLowerCase on one code point, ASCII fragment. -/
def jsLowerNat (n : Nat) : Nat := if 65 ≤ n ∧ n ≤ 90 then n + 32 else n

/-- JavaScript String.prototype.toLowerCase, ASCII fragment. -/
def jsLower (s : Str) : Str := s.map jsLowerNat

/-- Boolean test that pat is a prefix of s. -/
def prefB : Str → Str → Bool
  | [], _ => true
  | _ :: _, [] => false
  | p :: ps, c :: tl => if p = c then prefB ps tl else false

/-- JavaScript String.prototype.includes: pat occurs as a contiguous
substring of s. -/
def strIncludes (s pat : Str) : Bool :=
  match s with
  | [] => prefB pat []
  | c :: tl => prefB pat (c :: tl) || strIncludes tl pat

/-- JavaScript s.replace(pat, two quotes): remove the first occurrence of
pat from s; s unchanged when pat does not occur. -/
def replaceFirst (pat : Str) : Str → Str
  | [] => []
  | c :: tl => if prefB pat (c :: tl) then List.drop pat.length (c :: tl)
               else c :: replaceFirst pat tl

/-- JavaScript String.prototype.trim, ASCII whitespace. -/
def trim (s : Str) : Str := List.rdropWhile jsWs (List.dropWhile jsWs s)

/-- Decimal rendering of a number, used by template-literal interpolation. -/
def natToStr (n : Nat) : Str := str (Nat.repr n)

/-! ## The local intent parser (src/lib/commandParser.ts) -/

/-- The type field of a parsed Command. -/
inductive CmdType where
  | navigation | search | cart | category | help | product | general
deriving DecidableEq

/-- The parameters field of a Command: at most one slot is filled,
depending on the command type. -/
inductive Params where
  | none
  | path (p : Str)
  | query (q : Str)
  | product (p : Str)
  | category (c : Str)
deriving DecidableEq

/-- interface Command of commandParser.ts.  The confidence literals 1.0,
0.9, 0.8, 0.7 are stored in tenths (10, 9, 8, 7) so that every field of the
model is kernel-decidable; rational arithmetic does not reduce inside the
kernel. -/
structure Command where
  type : CmdType
  action : Str
  parameters : Params := Params.none
  confidence : Nat
deriving DecidableEq

/-- interface ParsedCommand of commandParser.ts. -/
structure ParsedCommand where
  command : Option Command
  originalText : Str
  suggestions : Option (List Str) := Option.none
deriving DecidableEq

/-- CommandParser.navigationKeywords. -/
def navigationKeywords : List Str :=
  [str "go to", str "navigate to", str "take me to", str "show me", str "open",
   str "visit", str "browse"]

/-- CommandParser.searchKeywords. -/
def searchKeywords : List Str :=
  [str "search for", str "find", str "look for", str "find me", str "search",
   str "look up", str "show me"]

/-- CommandParser.categoryKeywords. -/
def categoryKeywords : List Str :=
  [str "show", str "filter by", str "category", str "in", str "from", str "type"]

/-- CommandParser.cartKeywords. -/
def cartKeywords : List Str :=
  [str "add to cart", str "buy", str "purchase", str "order", str "get",
   str "add", str "cart"]

/-- CommandParser.helpKeywords. -/
def helpKeywords : List Str :=
  [str "help", str "what can you do", str "how do i", str "how to",
   str "guide", str "assist"]

/-- CommandParser.locations, in object-literal insertion order (the order
Object.entries iterates). -/
def locations : List (Str × Str) :=
  [(str "home", str "/"), (str "main page", str "/"), (str "start", str "/"),
   (str "products", str "/products"), (str "shop", str "/products"),
   (str "store", str "/products"), (str "catalog", str "/products"),
   (str "cart", str "/cart"), (str "shopping cart", str "/cart"),
   (str "basket", str "/cart"), (str "checkout", str "/checkout"),
   (str "payment", str "/checkout"), (str "order", str "/checkout")]

/-- CommandParser.categories. -/
def categories : List Str :=
  [str "electronics", str "clothing", str "books", str "home", str "sports",
   str "beauty", str "toys", str "automotive"]

/-- The exactMatches table of CommandParser.findExactMatch. -/
def exactMatches : List (Str × Command) :=
  [(str "help", { type := CmdType.help, action := str "help", confidence := 10 }),
   (str "what can you do", { type := CmdType.help, action := str "help", confidence := 10 }),
   (str "go home", { type := CmdType.navigation, action := str "navigate",
                     parameters := Params.path (str "/"), confidence := 10 }),
   (str "show cart", { type := CmdType.cart, action := str "view", confidence := 10 }),
   (str "view cart", { type := CmdType.cart, action := str "view", confidence := 10 }),
   (str "clear cart", { type := CmdType.cart, action := str "clear", confidence := 10 }),
   (str "empty cart", { type := CmdType.cart, action := str "clear", confidence := 10 })]

/-- CommandParser.findExactMatch: whole-input lookup in the fixed table. -/
def findExactMatch (input : Str) : Option Command :=
  (exactMatches.find? fun p => decide (p.1 = input)).map Prod.snd

/-- CommandParser.parseNavigation.  The source iterates the navigation
keywords, and for the first keyword contained in the input whose stripped
remainder contains a location name returns a navigation command for the
first such location in table order. -/
def parseNavigation (input : Str) : Option Command :=
  navigationKeywords.findSome? fun keyword =>
    if strIncludes input keyword then
      locations.findSome? fun lp =>
        if strIncludes (trim (replaceFirst keyword input)) lp.1 then
          some { type := CmdType.navigation, action := str "navigate",
                 parameters := Params.path lp.2, confidence := 9 }
        else none
    else none

/-- CommandParser.parseSearch. -/
def parseSearch (input : Str) : Option Command :=
  searchKeywords.findSome? fun keyword =>
    if strIncludes input keyword then
      if (trim (replaceFirst keyword input)).length > 1 then
        some { type := CmdType.search, action := str "search",
               parameters := Params.query (trim (replaceFirst keyword input)),
               confidence := 9 }
      else none
    else none

/-- CommandParser.parseCategory. -/
def parseCategory (input : Str) : Option Command :=
  categoryKeywords.findSome? fun keyword =>
    if strIncludes input keyword then
      categories.findSome? fun category =>
        if strIncludes input category then
          some { type := CmdType.category, action := str "filter",
                 parameters := Params.category category, confidence := 8 }
        else none
    else none

/-- CommandParser.parseCart. -/
def parseCart (input : Str) : Option Command :=
  cartKeywords.findSome? fun keyword =>
    if strIncludes input keyword then
      if (trim (replaceFirst keyword input)).length > 1 then
        some { type := CmdType.cart, action := str "add",
               parameters := Params.product (trim (replaceFirst keyword input)),
               confidence := 8 }
      else none
    else none

/-- CommandParser.parseHelp. -/
def parseHelp (input : Str) : Option Command :=
  helpKeywords.findSome? fun keyword =>
    if strIncludes input keyword then
      some { type := CmdType.help, action := str "help", confidence := 9 }
    else none

/-! Regular-expression engine for the three product patterns of
CommandParser.parseProduct.  Each pattern is an alternation of literal
verbs followed by backslash-s-plus and a greedy dot-plus capture
group.  capTry implements the greedy-with-backtracking choice of the
whitespace run length; regexFindCapture scans match start positions left
to right, trying the alternatives in order at each position. -/

/-- Try whitespace-run lengths m, m-1, ..., 1 (greedy backtracking) and
return the dot-plus capture, the maximal run of non-line-terminator code
points after the consumed whitespace. -/
def capTry (rest : Str) : Nat → Option Str
  | 0 => none
  | m + 1 =>
    match rest.drop (m + 1) with
    | [] => capTry rest m
    | c :: cs => if nonNL c then some ((c :: cs).takeWhile nonNL) else capTry rest m

/-- Match backslash-s-plus followed by the dot-plus capture at the start of
rest. -/
def matchWsCap (rest : Str) : Option Str :=
  capTry rest (rest.takeWhile jsWs).length

/-- Leftmost regex match for one pattern (a list of literal alternatives,
each followed by whitespace and a capture), returning the capture. -/
def regexFindCapture (alts : List Str) : Str → Option Str
  | [] => none
  | c :: tl =>
    match alts.findSome? (fun a =>
        if prefB a (c :: tl) then matchWsCap ((c :: tl).drop a.length) else none) with
    | some cap => some cap
    | none => regexFindCapture alts tl

/-- The three productPatterns of CommandParser.parseProduct, as their
alternation lists.  The source applies them case-insensitively, but only
ever to the already-lowercased input. -/
def productPatterns : List (List Str) :=
  [[str "show", str "display", str "view", str "see"],
   [str "tell me about", str "what is", str "describe"],
   [str "price of", str "cost of"]]

/-- CommandParser.parseProduct. -/
def parseProduct (input : Str) : Option Command :=
  productPatterns.findSome? fun alts =>
    match regexFindCapture alts input with
    | some cap =>
      if (trim cap).length > 1 then
        some { type := CmdType.product, action := str "info",
               parameters := Params.product (trim cap), confidence := 7 }
      else none
    | none => none

/-- CommandParser.generateSuggestions. -/
def generateSuggestions (input : Str) : List Str :=
  if input.length < 3 then
    [str "Try saying \"help\" to see what I can do",
     str "Say \"go to products\" to browse the store",
     str "Say \"search for shoes\" to find products"]
  else if strIncludes input (str "go") || strIncludes input (str "navigate") then
    [str "Try \"go to products\" or \"go to cart\"",
     str "Say \"go to checkout\" to complete your order"]
  else if strIncludes input (str "find") || strIncludes input (str "search") then
    [str "Try \"search for red shoes\" or \"find dresses\"",
     str "Say \"search for electronics\" to browse categories"]
  else if strIncludes input (str "cart") || strIncludes input (str "buy") then
    [str "Try \"add to cart\" or \"view cart\"",
     str "Say \"clear cart\" to remove all items"]
  else
    [str "Say \"help\" to see all available commands",
     str "Try \"go to products\" to start shopping",
     str "Say \"search for [product name]\" to find items"]

/-- The rule cascade of CommandParser.parse applied to the lowercased,
trimmed input (the source checks each rule in this order and returns on
the first hit). -/
def parseCommandOpt (lowerInput : Str) : Option Command :=
  match findExactMatch lowerInput with
  | some c => some c
  | none =>
  match parseNavigation lowerInput with
  | some c => some c
  | none =>
  match parseSearch lowerInput with
  | some c => some c
  | none =>
  match parseCategory lowerInput with
  | some c => some c
  | none =>
  match parseCart lowerInput with
  | some c => some c
  | none =>
  match parseHelp lowerInput with
  | some c => some c
  | none => parseProduct lowerInput

/-- CommandParser.parse.  The words array computed by the source is passed
to the helpers but never read, so it is omitted.  Suggestions are attached
exactly when no rule matched, as in the source. -/
def parse (input : Str) : ParsedCommand :=
  let lowerInput := trim (jsLower input)
  match parseCommandOpt lowerInput with
  | some c => { command := some c, originalText := input }
  | none => { command := Option.none, originalText := input,
              suggestions := some (generateSuggestions lowerInput) }

/-! ## AI agent configuration (config.ts) -/

/-- AI_AGENT_CONFIG.MAX_STEPS. -/
def MAX_STEPS : Nat := 6

/-- AI_AGENT_CONFIG.MAX_TEXT_LENGTH. -/
def MAX_TEXT_LENGTH : Nat := 100

/-- AI_AGENT_CONFIG.ERROR_MESSAGES.NO_INTERACTIVE_ELEMENTS. -/
def msgNoInteractiveElements : Str := str "No interactive elements found on the page"

/-- AI_AGENT_CONFIG.ERROR_MESSAGES.ELEMENT_NOT_FOUND. -/
def msgElementNotFound : Str := str "Element not found on the page"

/-- AI_AGENT_CONFIG.ERROR_MESSAGES.INVALID_ACTION. -/
def msgInvalidAction : Str := str "Invalid action received from backend"

/-- AI_AGENT_CONFIG.ERROR_MESSAGES.API_ERROR. -/
def msgApiError : Str := str "Failed to communicate with AI backend"

/-- AI_AGENT_CONFIG.ERROR_MESSAGES.MAX_STEPS_EXCEEDED. -/
def msgMaxStepsExceeded : Str := str "Command execution stopped to prevent infinite loop"

/-- AI_AGENT_CONFIG.ERROR_MESSAGES.EMPTY_COMMAND. -/
def msgEmptyCommand : Str := str "Please enter a command"

/-- AI_AGENT_CONFIG.ERROR_MESSAGES.ALREADY_PROCESSING, also the literal
console warning text in useNavigator.executeCommand. -/
def msgAlreadyProcessing : Str := str "Navigator is already processing a command"

/-! ## Agent utilities (utils.ts) -/

/-- dropWhile never lengthens a list (termination measure helper). -/
theorem length_dropWhile_le' {α : Type} (p : α → Bool) (l : List α) :
    (l.dropWhile p).length ≤ l.length := by
  induction l with
  | nil => simp [List.dropWhile]
  | cons c tl ih =>
    by_cases h : p c
    · simp only [List.dropWhile_cons_of_pos h, List.length_cons]
      omega
    · simp [List.dropWhile_cons_of_neg h]

/-- Worker for collapseWs; the flag records whether the previous code point
belonged to a whitespace run whose single replacement space was already
emitted. -/
def collapseWsAux : Bool → Str → Str
  | _, [] => []
  | inRun, c :: tl =>
    if jsWs c then
      if inRun then collapseWsAux true tl
      else 32 :: collapseWsAux true tl
    else c :: collapseWsAux false tl

/-- Collapse every maximal whitespace run to a single space: the
replace(backslash-s-plus, one space) global replacement in sanitizeInput. -/
def collapseWs (s : Str) : Str := collapseWsAux false s

/-- utils.sanitizeInput: trim, collapse inner whitespace, truncate to 500. -/
def sanitizeInput (input : Str) : Str :=
  (collapseWs (trim input)).take 500

/-- A thrown or caught JavaScript value, as seen by utils.formatError. -/
inductive JsValue where
  | errorVal (message : Str)
  | stringVal (s : Str)
  | otherVal
deriving DecidableEq

/-- utils.formatError. -/
def formatError : JsValue → Str
  | JsValue.errorVal message => message
  | JsValue.stringVal s => s
  | JsValue.otherVal => str "An unexpected error occurred"

/-! ## Element scanner (DomObserver.ts and utils.ts getElementText)

A page element models one HTMLElement already matched by the interactive
selectors, in document order, together with the browser state read by
isElementVisible, isElementDisabled and getElementText.  Attributes read
through getAttribute are Option valued (none models null); innerText and
textContent may be absent (undefined).  Rendered rectangle sizes are
modelled as rationals.  The dataset.agentId attribute written by the
scanner is the agentId field. -/

/-- The element subtypes the source distinguishes by instanceof. -/
inductive ElementKind where
  | input | button | select | textarea | other
deriving DecidableEq

structure PageElement where
  kind : ElementKind
  tagName : Str
  placeholder : Str := []
  value : Str := []
  inputType : Str := []
  ariaLabel : Option Str := Option.none
  title : Option Str := Option.none
  alt : Option Str := Option.none
  innerText : Option Str := Option.none
  textContent : Option Str := Option.none
  styleDisplay : Str := str "block"
  styleVisibility : Str := str "visible"
  styleOpacity : Str := str "1"
  rectWidth : ℚ := 1
  rectHeight : ℚ := 1
  hidden : Bool := false
  ariaHidden : Bool := false
  disabled : Bool := false
  disabledAttr : Bool := false
  ariaDisabled : Option Str := Option.none
  agentId : Option Nat := Option.none
deriving DecidableEq

/-- utils.isElementVisible. -/
def isElementVisible (el : PageElement) : Bool :=
  decide (el.styleDisplay ≠ str "none") &&
  decide (el.styleVisibility ≠ str "hidden") &&
  decide (el.styleOpacity ≠ str "0") &&
  decide (el.rectWidth > 0) &&
  decide (el.rectHeight > 0) &&
  !el.hidden &&
  !el.ariaHidden

/-- utils.isElementDisabled. -/
def isElementDisabled (el : PageElement) : Bool :=
  match el.kind with
  | ElementKind.input | ElementKind.button | ElementKind.select
  | ElementKind.textarea => el.disabled
  | ElementKind.other =>
    el.disabledAttr || decide (el.ariaDisabled = some (str "true"))

/-- JavaScript a or-else b over strings, where the empty string, null and
undefined are falsy (null and undefined flattened to the empty string
beforehand by optStr). -/
def jsOr (a b : Str) : Str := if a = [] then b else a

/-- Flatten a nullable attribute for use in an or-else chain. -/
def optStr (o : Option Str) : Str := o.getD []

/-- utils.getElementText: the or-else chains of the source, one per
element subtype, truncated by substring(0, MAX_TEXT_LENGTH). -/
def getElementText (el : PageElement) : Str :=
  let text :=
    match el.kind with
    | ElementKind.input =>
      jsOr el.placeholder (jsOr el.value
        (jsOr (optStr el.ariaLabel) (jsOr (optStr el.title) [])))
    | ElementKind.select =>
      jsOr (optStr el.ariaLabel) (jsOr (optStr el.title) (str "Select dropdown"))
    | _ =>
      jsOr (trim (optStr el.innerText)) (jsOr (trim (optStr el.textContent))
        (jsOr (optStr el.ariaLabel) (jsOr (optStr el.title)
          (jsOr (optStr el.alt) []))))
  text.take MAX_TEXT_LENGTH

/-- interface DOMElement of types.ts. -/
structure DOMElement where
  id : Nat
  tag : Str
  text : Str
  type : Option Str := Option.none
  placeholder : Option Str := Option.none
  value : Option Str := Option.none
deriving DecidableEq

/-- The element filter of collectInteractiveElements. -/
def passesFilter (el : PageElement) : Bool :=
  isElementVisible el && !isElementDisabled el

/-- The dataset.agentId assignment pass of collectInteractiveElements:
every element passing the filter receives the next dense index, every
other element keeps whatever agentId it already carried. -/
def assignIds : List PageElement → Nat → List PageElement
  | [], _ => []
  | el :: tl, i =>
    if passesFilter el then { el with agentId := some i } :: assignIds tl (i + 1)
    else el :: assignIds tl i

/-- The descriptor produced for one visible element at index. -/
def mkDescriptor (i : Nat) (el : PageElement) : DOMElement :=
  { id := i, tag := jsLower el.tagName, text := getElementText el,
    type := if el.kind = ElementKind.input then some el.inputType else Option.none,
    placeholder := if el.kind = ElementKind.input then some el.placeholder else Option.none,
    value := if el.kind = ElementKind.input then some el.value else Option.none }

/-- DomObserver.collectInteractiveElements, split into the mutated document
(agent ids written onto the elements) and the returned snapshot.  The
input list stands for the querySelectorAll result in document order. -/
def collectInteractiveElements (page : List PageElement) :
    List PageElement × List DOMElement :=
  (assignIds page 0,
   ((page.filter passesFilter).enum).map fun p => mkDescriptor p.1 p.2)

/-- document.querySelector with a data-agent-id selector succeeds: some
element in the document carries the identifier. -/
def resolvesId (doc : List PageElement) (i : Nat) : Bool :=
  doc.any fun el => decide (el.agentId = some i)

/-! ## Actions and the executor (types.ts, Executor.ts) -/

inductive ActionKind where
  | CLICK | TYPE | DONE
deriving DecidableEq

/-- interface AgentAction of types.ts. -/
structure AgentAction where
  action : ActionKind
  elementId : Option Nat := Option.none
  text : Option Str := Option.none
  summary : Option Str := Option.none
deriving DecidableEq

/-- Executor.validateAction against the current document. -/
def validateAction (doc : List PageElement) (action : AgentAction) : Bool :=
  if action.action = ActionKind.DONE then true
  else
    match action.elementId with
    | Option.none => false
    | some id => resolvesId doc id

/-! ## Remote planner client and loop controller (useNavigator.ts) -/

/-- The JSON body of a successful backend response before structural
validation: the action field may be missing or arbitrary. -/
structure RawResponse where
  action : Option Str := Option.none
  elementId : Option Nat := Option.none
  text : Option Str := Option.none
  summary : Option Str := Option.none
deriving DecidableEq

/-- Outcome of one fetch to the planner endpoint: a thrown value (network
failure, timeout abort, or the HTTP-not-ok error built by sendToBackend)
or a parsed JSON body. -/
inductive FetchOutcome where
  | fail (e : JsValue)
  | ok (data : RawResponse)
deriving DecidableEq

/-- useNavigator.sendToBackend: rethrows fetch failures and rejects any
body whose action is missing or not one of CLICK, TYPE, DONE. -/
def sendToBackend : FetchOutcome → Except JsValue AgentAction
  | FetchOutcome.fail e => Except.error e
  | FetchOutcome.ok data =>
    match data.action with
    | some a =>
      if a = str "CLICK" then
        Except.ok { action := ActionKind.CLICK, elementId := data.elementId,
                    text := data.text, summary := data.summary }
      else if a = str "TYPE" then
        Except.ok { action := ActionKind.TYPE, elementId := data.elementId,
                    text := data.text, summary := data.summary }
      else if a = str "DONE" then
        Except.ok { action := ActionKind.DONE, elementId := data.elementId,
                    text := data.text, summary := data.summary }
      else Except.error (JsValue.errorVal (str "Invalid response format from backend"))
    | Option.none =>
      Except.error (JsValue.errorVal (str "Invalid response format from backend"))

/-- The UseNavigatorState record of useNavigator.ts. -/
structure UseNavigatorState where
  isProcessing : Bool
  history : List AgentAction
  error : Option Str
  lastAction : Option AgentAction
deriving DecidableEq

/-- The environment one loop iteration observes: the interactive elements
currently in the document (the DOM between steps is driven by the page and
by executed actions, both external to the hook) and the planner fetch
outcome for this iteration. -/
structure StepEnv where
  page : List PageElement
  fetch : FetchOutcome

/-- Ghost observation counters: how many element scans, planner requests
and executed actions one executeCommand invocation performed. -/
structure RunStats where
  scans : Nat := 0
  backendCalls : Nat := 0
  executedActions : Nat := 0
deriving DecidableEq

/-- How the try block of executeCommand ended: a normal return after DONE,
or a thrown value together with the component state at the throw site. -/
inductive LoopExit where
  | finished (st : UseNavigatorState)
  | thrown (e : JsValue) (st : UseNavigatorState)
deriving DecidableEq

/-- Template-literal rendering of action.elementId in the element-not-found
error message (undefined prints as the string undefined). -/
def showElementId : Option Nat → Str
  | some n => natToStr n
  | Option.none => str "undefined"

/-- The while loop of useNavigator.executeCommand.  fuel counts the
remaining iterations permitted by the stepCount guard against MAX_STEPS;
i indexes the step environments; currentHistory mirrors the local array of
the source, st the React state after the latest setState.  Reaching fuel
zero models falling out of the while loop into the max-steps throw.
executeAction only mutates the live DOM, which the next iteration reads
through its StepEnv, so its call site only ticks the ghost counter. -/
def runLoop (env : Nat → StepEnv) :
    Nat → Nat → UseNavigatorState → List AgentAction → RunStats →
    LoopExit × RunStats
  | 0, _, st, _, stats =>
    (LoopExit.thrown (JsValue.errorVal msgMaxStepsExceeded) st, stats)
  | fuel + 1, i, st, currentHistory, stats =>
    let scanned := collectInteractiveElements (env i).page
    let stats := { stats with scans := stats.scans + 1 }
    if (scanned.2).length = 0 then
      (LoopExit.thrown (JsValue.errorVal msgNoInteractiveElements) st, stats)
    else
      let stats := { stats with backendCalls := stats.backendCalls + 1 }
      match sendToBackend (env i).fetch with
      | Except.error e => (LoopExit.thrown e st, stats)
      | Except.ok action =>
        let st := { st with lastAction := some action }
        if action.action = ActionKind.DONE then
          (LoopExit.finished
            { st with isProcessing := false,
                      history := currentHistory ++ [action] }, stats)
        else if !validateAction scanned.1 action then
          (LoopExit.thrown
            (JsValue.errorVal
              (msgElementNotFound ++ str ": " ++ showElementId action.elementId))
            st, stats)
        else
          let stats := { stats with executedActions := stats.executedActions + 1 }
          let currentHistory := currentHistory ++ [action]
          let st := { st with history := currentHistory }
          runLoop env fuel (i + 1) st currentHistory stats

/-- Result of one executeCommand invocation: final state, ghost counters,
and the console warnings issued by the entry guard. -/
structure ExecResult where
  state : UseNavigatorState
  stats : RunStats
  warnings : List Str
deriving DecidableEq

/-- useNavigator.executeCommand: entry guards, the processing transition,
the while loop, and the single catch that converts any thrown value into
the failed state with the processing flag cleared. -/
def executeCommand (st : UseNavigatorState) (query : Str) (env : Nat → StepEnv) :
    ExecResult :=
  if st.isProcessing then
    { state := st, stats := {}, warnings := [msgAlreadyProcessing] }
  else
    let sanitizedQuery := sanitizeInput query
    if sanitizedQuery = [] then
      { state := { st with error := some msgEmptyCommand }, stats := {}, warnings := [] }
    else
      let st1 := { st with isProcessing := true, error := Option.none,
                           lastAction := Option.none }
      match runLoop env MAX_STEPS 0 st1 st.history {} with
      | (LoopExit.finished st2, stats) =>
        { state := st2, stats := stats, warnings := [] }
      | (LoopExit.thrown e st2, stats) =>
        { state := { st2 with isProcessing := false,
                              error := some (formatError e) },
          stats := stats, warnings := [] }

/-! ## Shared lemmas about the string model -/

theorem mem_of_mem_trim {x : Nat} {s : Str} (h : x ∈ trim s) : x ∈ s :=
  (List.dropWhile_suffix jsWs).subset ((List.rdropWhile_prefix jsWs _).subset h)

theorem mem_of_mem_replaceFirst {x : Nat} (pat : Str) :
    ∀ s : Str, x ∈ replaceFirst pat s → x ∈ s := by
  intro s
  induction s with
  | nil => simp [replaceFirst]
  | cons c tl ih =>
    simp only [replaceFirst]
    split
    · intro hx
      exact (List.drop_sublist _ _).subset hx
    · intro hx
      rcases List.mem_cons.mp hx with h | h
      · exact List.mem_cons.mpr (Or.inl h)
      · exact List.mem_cons.mpr (Or.inr (ih h))

theorem mem_of_mem_capTry {x : Nat} (rest : Str) :
    ∀ m cap, capTry rest m = some cap → x ∈ cap → x ∈ rest := by
  intro m
  induction m with
  | zero => simp [capTry]
  | succ k ih =>
    intro cap h hx
    unfold capTry at h
    split at h
    · exact ih _ h hx
    · rename_i c cs heq
      split at h
      · cases h
        have h1 : x ∈ (c :: cs : Str) :=
          (List.takeWhile_prefix nonNL).subset hx
        rw [← heq] at h1
        exact (List.drop_sublist _ _).subset h1
      · exact ih _ h hx

theorem mem_of_mem_regexFindCapture {x : Nat} (alts : List Str) :
    ∀ s cap, regexFindCapture alts s = some cap → x ∈ cap → x ∈ s := by
  intro s
  induction s with
  | nil => simp [regexFindCapture]
  | cons c tl ih =>
    intro cap h hx
    unfold regexFindCapture at h
    split at h
    · rename_i cap2 hf
      cases h
      obtain ⟨a, _, ha⟩ := List.exists_of_findSome?_eq_some hf
      split at ha
      · unfold matchWsCap at ha
        have h1 : x ∈ (c :: tl).drop a.length :=
          mem_of_mem_capTry _ _ _ ha hx
        exact (List.drop_sublist _ _).subset h1
      · cases ha
    · exact List.mem_cons.mpr (Or.inr (ih _ h hx))

theorem jsLowerNat_idem (n : Nat) : jsLowerNat (jsLowerNat n) = jsLowerNat n := by
  by_cases h : 65 ≤ n ∧ n ≤ 90
  · have h2 : ¬(65 ≤ n + 32 ∧ n + 32 ≤ 90) := by omega
    simp [jsLowerNat, h, h2]
    omega
  · simp [jsLowerNat, h]

theorem mem_jsLower_fixed {x : Nat} {s : Str} (h : x ∈ jsLower s) :
    jsLowerNat x = x := by
  obtain ⟨y, _, rfl⟩ := List.mem_map.mp h
  exact jsLowerNat_idem y

theorem jsWs_jsLowerNat (n : Nat) : jsWs (jsLowerNat n) = jsWs n := by
  unfold jsLowerNat
  split
  · have h1 : jsWs (n + 32) = false := by
      simp only [jsWs, Bool.or_eq_false_iff, decide_eq_false_iff_not]
      omega
    have h2 : jsWs n = false := by
      simp only [jsWs, Bool.or_eq_false_iff, decide_eq_false_iff_not]
      omega
    rw [h1, h2]
  · rfl

theorem jsLower_idem (s : Str) : jsLower (jsLower s) = jsLower s := by
  unfold jsLower
  rw [List.map_map]
  exact List.map_congr_left fun x _ => jsLowerNat_idem x

theorem jsLower_trim (s : Str) : trim (jsLower s) = jsLower (trim s) := by
  have hfun : jsWs ∘ jsLowerNat = jsWs := funext jsWs_jsLowerNat
  unfold trim jsLower List.rdropWhile
  rw [List.dropWhile_map, hfun]
  rw [show ∀ l : Str, (l.map jsLowerNat).reverse = l.reverse.map jsLowerNat
        from fun l => by rw [List.map_reverse],
      List.dropWhile_map, hfun,
      show ∀ l : Str, (l.map jsLowerNat).reverse = l.reverse.map jsLowerNat
        from fun l => by rw [List.map_reverse]]

theorem dropWhile_fix_of_rdropWhile {p : Nat → Bool} {u : Str}
    (hdrop : u.dropWhile p = u) :
    (List.rdropWhile p u).dropWhile p = List.rdropWhile p u := by
  cases hr : List.rdropWhile p u with
  | nil => simp
  | cons a as =>
    have hpre : List.rdropWhile p u <+: u := List.rdropWhile_prefix p u
    rw [hr] at hpre
    obtain ⟨t, ht⟩ := hpre
    have hu : u = a :: (as ++ t) := by rw [← ht]; simp
    have hpa : p a = false := by
      by_cases hp : p a
      · exfalso
        have h2 := hdrop
        rw [hu, List.dropWhile_cons_of_pos hp] at h2
        have h3 := congrArg List.length h2
        have hle := length_dropWhile_le' p (as ++ t)
        simp only [List.length_cons] at h3
        omega
      · exact Bool.eq_false_iff.mpr hp
    rw [List.dropWhile_cons_of_neg (by simp [hpa])]

theorem trim_idem (s : Str) : trim (trim s) = trim s := by
  unfold trim
  rw [dropWhile_fix_of_rdropWhile (List.dropWhile_idempotent _ _),
      List.rdropWhile_idempotent]

theorem trim_jsLower_trim (input : Str) :
    trim (jsLower (trim (jsLower input))) = trim (jsLower input) := by
  rw [jsLower_trim, trim_idem, ← jsLower_trim, jsLower_idem]

/-! ## Shared lemmas about the parser -/

theorem parse_command_eq (input : Str) :
    (parse input).command = parseCommandOpt (trim (jsLower input)) := by
  unfold parse
  cases h : parseCommandOpt (trim (jsLower input)) <;> simp [h]

/-- A findSome? whose body filters by a predicate succeeds at the first
element the predicate accepts, provided the body succeeds there. -/
theorem findSome?_if_of_find? {α β : Type} (l : List α) (p : α → Bool)
    (g : α → Option β) {a : α} {b : β}
    (hfind : l.find? p = some a) (hg : g a = some b) :
    (l.findSome? fun x => if p x then g x else none) = some b := by
  induction l with
  | nil => cases hfind
  | cons c tl ih =>
    by_cases hc : p c
    · rw [List.find?_cons_of_pos _ hc] at hfind
      cases hfind
      rw [List.findSome?_cons]
      simp [hc, hg]
    · rw [List.find?_cons_of_neg _ hc] at hfind
      rw [List.findSome?_cons]
      simp only [hc, if_false]
      exact ih hfind

theorem parseNavigation_spec {L : Str} {c : Command}
    (h : parseNavigation L = some c) :
    ∃ kw ∈ navigationKeywords, strIncludes L kw = true ∧
      ∃ lp ∈ locations,
        strIncludes (trim (replaceFirst kw L)) lp.1 = true ∧
        c = { type := CmdType.navigation, action := str "navigate",
              parameters := Params.path lp.2, confidence := 9 } := by
  obtain ⟨kw, hkw, hf⟩ := List.exists_of_findSome?_eq_some h
  split at hf
  · rename_i hinc
    obtain ⟨lp, hlp, hg⟩ := List.exists_of_findSome?_eq_some hf
    split at hg
    · rename_i hinc2
      cases hg
      exact ⟨kw, hkw, hinc, lp, hlp, hinc2, rfl⟩
    · cases hg
  · cases hf

theorem parseSearch_spec {L : Str} {c : Command}
    (h : parseSearch L = some c) :
    ∃ kw ∈ searchKeywords, strIncludes L kw = true ∧
      (trim (replaceFirst kw L)).length > 1 ∧
      c = { type := CmdType.search, action := str "search",
            parameters := Params.query (trim (replaceFirst kw L)),
            confidence := 9 } := by
  obtain ⟨kw, hkw, hf⟩ := List.exists_of_findSome?_eq_some h
  split at hf
  · rename_i hinc
    split at hf
    · rename_i hlen
      cases hf
      exact ⟨kw, hkw, hinc, hlen, rfl⟩
    · cases hf
  · cases hf

theorem parseCategory_spec {L : Str} {c : Command}
    (h : parseCategory L = some c) :
    ∃ cat ∈ categories,
      c = { type := CmdType.category, action := str "filter",
            parameters := Params.category cat, confidence := 8 } := by
  obtain ⟨kw, _, hf⟩ := List.exists_of_findSome?_eq_some h
  split at hf
  · obtain ⟨cat, hcat, hg⟩ := List.exists_of_findSome?_eq_some hf
    split at hg
    · cases hg
      exact ⟨cat, hcat, rfl⟩
    · cases hg
  · cases hf

theorem parseCart_spec {L : Str} {c : Command}
    (h : parseCart L = some c) :
    ∃ kw ∈ cartKeywords, strIncludes L kw = true ∧
      c = { type := CmdType.cart, action := str "add",
            parameters := Params.product (trim (replaceFirst kw L)),
            confidence := 8 } := by
  obtain ⟨kw, hkw, hf⟩ := List.exists_of_findSome?_eq_some h
  split at hf
  · rename_i hinc
    split at hf
    · cases hf
      exact ⟨kw, hkw, hinc, rfl⟩
    · cases hf
  · cases hf

theorem parseHelp_spec {L : Str} {c : Command}
    (h : parseHelp L = some c) :
    c = { type := CmdType.help, action := str "help", confidence := 9 } := by
  obtain ⟨kw, _, hf⟩ := List.exists_of_findSome?_eq_some h
  split at hf
  · cases hf
    rfl
  · cases hf

theorem parseProduct_spec {L : Str} {c : Command}
    (h : parseProduct L = some c) :
    ∃ alts ∈ productPatterns, ∃ cap, regexFindCapture alts L = some cap ∧
      c = { type := CmdType.product, action := str "info",
            parameters := Params.product (trim cap), confidence := 7 } := by
  obtain ⟨alts, halts, hf⟩ := List.exists_of_findSome?_eq_some h
  split at hf
  · rename_i cap hcap
    split at hf
    · cases hf
      exact ⟨alts, halts, cap, hcap, rfl⟩
    · cases hf
  · cases hf

theorem findExactMatch_spec {L : Str} {c : Command}
    (h : findExactMatch L = some c) :
    ∃ p ∈ exactMatches, p.1 = L ∧ p.2 = c := by
  unfold findExactMatch at h
  cases hf : exactMatches.find? fun p => decide (p.1 = L) with
  | none => rw [hf] at h; cases h
  | some p =>
    rw [hf] at h
    cases h
    have h1 : p.1 = L := by simpa using List.find?_some hf
    exact ⟨p, List.mem_of_find?_eq_some hf, h1, rfl⟩

/-- No exact-match table key contains a navigation keyword, so an input on
which parseNavigation fires can never hit the exact-match table. -/
theorem findExactMatch_eq_none_of_parseNavigation {L : Str} {c : Command}
    (h : parseNavigation L = some c) : findExactMatch L = Option.none := by
  cases hm : findExactMatch L with
  | none => rfl
  | some c0 =>
    exfalso
    obtain ⟨p, hp, hkey, _⟩ := findExactMatch_spec hm
    obtain ⟨kw, hkw, hinc, _⟩ := parseNavigation_spec h
    rw [← hkey] at hinc
    have : ∀ q ∈ exactMatches, ∀ k ∈ navigationKeywords,
        strIncludes q.1 k = false := by decide
    rw [this p hp kw hkw] at hinc
    cases hinc

/-! ## Shared lemmas about the loop controller -/

theorem sendToBackend_error_cases {fo : FetchOutcome} {e : JsValue}
    (h : sendToBackend fo = Except.error e) :
    fo = FetchOutcome.fail e ∨
    e = JsValue.errorVal (str "Invalid response format from backend") := by
  cases fo with
  | fail eArg =>
    simp only [sendToBackend] at h
    injection h with h2
    subst h2
    exact Or.inl rfl
  | ok data =>
    simp only [sendToBackend] at h
    split at h
    · split at h
      · cases h
      · split at h
        · cases h
        · split at h
          · cases h
          · injection h with h2
            subst h2
            exact Or.inr rfl
    · injection h with h2
      subst h2
      exact Or.inr rfl

theorem runLoop_stats_shape (env : Nat → StepEnv) :
    ∀ fuel i st hist stats, ∃ d1 d2 d3, d1 ≤ fuel ∧ d2 ≤ fuel ∧ d3 ≤ fuel ∧
      (runLoop env fuel i st hist stats).2 =
        { scans := stats.scans + d1, backendCalls := stats.backendCalls + d2,
          executedActions := stats.executedActions + d3 } := by
  intro fuel
  induction fuel with
  | zero =>
    intro i st hist stats
    exact ⟨0, 0, 0, by omega, by omega, by omega, by simp [runLoop]⟩
  | succ f ih =>
    intro i st hist stats
    simp only [runLoop]
    split
    · exact ⟨1, 0, 0, by omega, by omega, by omega, by simp⟩
    · split
      · exact ⟨1, 1, 0, by omega, by omega, by omega, by simp⟩
      · split
        · exact ⟨1, 1, 0, by omega, by omega, by omega, by simp⟩
        · split
          · exact ⟨1, 1, 0, by omega, by omega, by omega, by simp⟩
          · obtain ⟨d1, d2, d3, h1, h2, h3, heq⟩ := ih (i + 1) _ _ _
            refine ⟨d1 + 1, d2 + 1, d3 + 1, by omega, by omega, by omega, ?_⟩
            rw [heq]
            simp
            omega

theorem runLoop_finished_spec (env : Nat → StepEnv) :
    ∀ fuel i st hist stats st2,
      (runLoop env fuel i st hist stats).1 = LoopExit.finished st2 →
      st2.isProcessing = false ∧ st2.error = st.error := by
  intro fuel
  induction fuel with
  | zero =>
    intro i st hist stats st2 h
    simp [runLoop] at h
  | succ f ih =>
    intro i st hist stats st2 h
    simp only [runLoop] at h
    split at h
    · simp at h
    · split at h
      · simp at h
      · split at h
        · simp at h
          rw [← h]
          exact ⟨rfl, rfl⟩
        · split at h
          · simp at h
          · have h2 := ih _ _ _ _ _ h
            exact ⟨h2.1, h2.2⟩

theorem runLoop_thrown_msg (env : Nat → StepEnv)
    (hfetch : ∀ j e, (env j).fetch = FetchOutcome.fail e → formatError e ≠ []) :
    ∀ fuel i st hist stats e st2,
      (runLoop env fuel i st hist stats).1 = LoopExit.thrown e st2 →
      formatError e ≠ [] := by
  intro fuel
  induction fuel with
  | zero =>
    intro i st hist stats e st2 h
    simp [runLoop] at h
    rw [← h.1]
    decide
  | succ f ih =>
    intro i st hist stats e st2 h
    simp only [runLoop] at h
    split at h
    · simp at h
      rw [← h.1]
      decide
    · split at h
      · rename_i eBack heq
        simp at h
        rw [← h.1]
        rcases sendToBackend_error_cases heq with hfail | hinv
        · exact hfetch _ _ hfail
        · rw [hinv]
          decide
      · split at h
        · simp at h
        · split at h
          · simp at h
            rw [← h.1]
            simp only [formatError]
            exact List.append_ne_nil_of_left_ne_nil (by decide) _
          · exact ih _ _ _ _ _ _ h

theorem runLoop_one_empty (env : Nat → StepEnv) (fuel i : Nat)
    (st : UseNavigatorState) (hist : List AgentAction) (stats : RunStats)
    (h : ((collectInteractiveElements (env i).page).2).length = 0) :
    runLoop env (fuel + 1) i st hist stats =
      (LoopExit.thrown (JsValue.errorVal msgNoInteractiveElements) st,
       { stats with scans := stats.scans + 1 }) := by
  simp [runLoop, h]

theorem executeCommand_run (st : UseNavigatorState) (q : Str) (env : Nat → StepEnv)
    (hp : st.isProcessing = false) (hq : sanitizeInput q ≠ []) :
    executeCommand st q env =
      match runLoop env MAX_STEPS 0
          { st with isProcessing := true, error := Option.none,
                    lastAction := Option.none } st.history {} with
      | (LoopExit.finished st2, stats) =>
        { state := st2, stats := stats, warnings := [] }
      | (LoopExit.thrown e st2, stats) =>
        { state := { st2 with isProcessing := false,
                              error := some (formatError e) },
          stats := stats, warnings := [] } := by
  unfold executeCommand
  rw [hp]
  simp [hq]

theorem parseNavigation_eq_of_find {L kw loc path : Str}
    (hkw : navigationKeywords.find? (fun k => strIncludes L k) = some kw)
    (hloc : locations.find?
        (fun lp => strIncludes (trim (replaceFirst kw L)) lp.1) = some (loc, path)) :
    parseNavigation L =
      some { type := CmdType.navigation, action := str "navigate",
             parameters := Params.path path, confidence := 9 } := by
  unfold parseNavigation
  apply findSome?_if_of_find? _ _ _ hkw
  exact findSome?_if_of_find? _ _ _ hloc rfl

theorem parseSearch_eq_of_find {L kw : Str}
    (hkw : searchKeywords.find? (fun k => strIncludes L k) = some kw)
    (hlen : (trim (replaceFirst kw L)).length > 1) :
    parseSearch L =
      some { type := CmdType.search, action := str "search",
             parameters := Params.query (trim (replaceFirst kw L)),
             confidence := 9 } := by
  unfold parseSearch
  apply findSome?_if_of_find? _ _ _ hkw
  simp [hlen]

theorem parse_of_nav {input : Str} {c : Command}
    (hnav : parseNavigation (trim (jsLower input)) = some c) :
    (parse input).command = some c := by
  rw [parse_command_eq]
  simp [parseCommandOpt, findExactMatch_eq_none_of_parseNavigation hnav, hnav]

theorem parse_of_search {input : Str} {c : Command}
    (hex : findExactMatch (trim (jsLower input)) = Option.none)
    (hnav : parseNavigation (trim (jsLower input)) = Option.none)
    (hsearch : parseSearch (trim (jsLower input)) = some c) :
    (parse input).command = some c := by
  rw [parse_command_eq]
  simp [parseCommandOpt, hex, hnav, hsearch]

/-! ## Spec-side definitions used by individual claims -/

/-- Modelled from the spec: first non-empty candidate wins. -/
def firstNonEmpty (xs : List Str) : Str :=
  (xs.find? fun s => !s.isEmpty).getD []

/-- The candidate lists of the text-extraction precedence, one per element
subtype, exactly as getElementText consults them (select included). -/
def textCandidates (el : PageElement) : List Str :=
  match el.kind with
  | ElementKind.input =>
    [el.placeholder, el.value, optStr el.ariaLabel, optStr el.title]
  | ElementKind.select =>
    [optStr el.ariaLabel, optStr el.title, str "Select dropdown"]
  | _ =>
    [trim (optStr el.innerText), trim (optStr el.textContent),
     optStr el.ariaLabel, optStr el.title, optStr el.alt]

/-- Modelled from the spec: the two-branch precedence the claim describes,
with no separate select branch — input-like elements read placeholder,
value, aria-label, title; every other element reads inner text, text
content, aria-label, title, alt; first non-empty wins, truncated. -/
def claimedTextPrecedence (el : PageElement) : Str :=
  (firstNonEmpty (match el.kind with
    | ElementKind.input =>
      [el.placeholder, el.value, optStr el.ariaLabel, optStr el.title]
    | _ =>
      [trim (optStr el.innerText), trim (optStr el.textContent),
       optStr el.ariaLabel, optStr el.title, optStr el.alt])).take MAX_TEXT_LENGTH

/-- The extracted free-text parameter of a command, if any: search query,
cart product name, category name, or product-info name. -/
def extractedParam : Params → Option Str
  | Params.query q => some q
  | Params.product p => some p
  | Params.category c => some c
  | _ => Option.none

theorem firstNonEmpty_cons (a : Str) (rest : List Str) :
    firstNonEmpty (a :: rest) = jsOr a (firstNonEmpty rest) := by
  unfold firstNonEmpty jsOr
  by_cases h : a = []
  · subst h
    simp [List.find?_cons]
  · rw [List.find?_cons_of_pos]
    · simp [h]
    · simp [h]

theorem firstNonEmpty_nil : firstNonEmpty [] = [] := rfl

/-! ## Concrete fixtures used by witnesses and counterexamples -/

/-- The initial hook state of useNavigator. -/
def initNavState : UseNavigatorState :=
  { isProcessing := false, history := [], error := Option.none,
    lastAction := Option.none }

/-- A hook state that is mid-command. -/
def busyNavState : UseNavigatorState :=
  { initNavState with isProcessing := true }

/-- A visible, enabled button. -/
def btnA : PageElement := { kind := ElementKind.button, tagName := str "BUTTON" }

/-- A second visible, enabled button. -/
def btnB : PageElement := { kind := ElementKind.button, tagName := str "BUTTON" }

/-- The CLICK action on scan identifier 0. -/
def clickAct0 : AgentAction := { action := ActionKind.CLICK, elementId := some 0 }

/-- A planner stub that always answers CLICK on element 0, over a page
whose single button stays present and valid on every scan. -/
def stubClickEnv : Nat → StepEnv := fun _ =>
  { page := [btnA],
    fetch := FetchOutcome.ok { action := some (str "CLICK"), elementId := some 0 } }

/-- An environment whose page never has any interactive element. -/
def emptyScanEnv : Nat → StepEnv := fun _ =>
  { page := [],
    fetch := FetchOutcome.ok { action := some (str "CLICK"), elementId := some 0 } }

/-- The document after scanning the two buttons and then hiding the second
one: the first element keeps identifier 0, the hidden element still carries
its identifier 1 from the earlier scan. -/
def stalePage : List PageElement :=
  match (collectInteractiveElements [btnA, btnB]).1 with
  | [a, b] => [a, { b with styleDisplay := str "none" }]
  | l => l

/-- A visible select element with rendered option text but no aria-label
and no title attribute. -/
def selOptionA : PageElement :=
  { kind := ElementKind.select, tagName := str "SELECT",
    innerText := some (str "Option A"), textContent := some (str "Option A") }

/-! ## Claim C1 -/

/-- C1 counterexample: the claim promises the search query keeps the case
of the original input, and promises a search command for every input with
a search lead-in and non-trivial remainder.  On input "search for Shoes"
the remainder of the original input is "Shoes" yet the parser returns the
lowercased query "shoes"; on input "show me cart" the search-rule
hypotheses hold (lead-in "show me", remainder "cart" of length 4) yet the
parser returns a navigation command. -/
theorem C1_counterexample :
    trim (replaceFirst (str "search for") (str "search for Shoes")) = str "Shoes" ∧
    (parse (str "search for Shoes")).command =
      some { type := CmdType.search, action := str "search",
             parameters := Params.query (str "shoes"), confidence := 9 } ∧
    str "shoes" ≠ str "Shoes" ∧
    trim (replaceFirst (str "show me") (str "show me cart")) = str "cart" ∧
    (str "cart").length > 1 ∧
    (parse (str "show me cart")).command =
      some { type := CmdType.navigation, action := str "navigate",
             parameters := Params.path (str "/cart"), confidence := 9 } := by
  decide

/-- C1 (amended): for an input whose lowercased, trimmed form is not an
exact-match phrase and does not satisfy the navigation rule, if some
search lead-in occurs in that lowercased form and the remainder after
stripping the first occurring lead-in and trimming has length greater
than 1, then parse returns a search command whose query is exactly that
remainder of the lowercased input — the query is lowercased, and only the
originalText field preserves the input case. -/
theorem C1_search_query (input kw : Str)
    (hex : findExactMatch (trim (jsLower input)) = Option.none)
    (hnav : parseNavigation (trim (jsLower input)) = Option.none)
    (hkw : searchKeywords.find?
        (fun k => strIncludes (trim (jsLower input)) k) = some kw)
    (hlen : (trim (replaceFirst kw (trim (jsLower input)))).length > 1) :
    (parse input).command =
      some { type := CmdType.search, action := str "search",
             parameters := Params.query
               (trim (replaceFirst kw (trim (jsLower input)))),
             confidence := 9 } :=
  parse_of_search hex hnav (parseSearch_eq_of_find hkw hlen)

/-- C1 witness: the amended statement evaluated on "search for Running
Shoes", whose query comes out as the lowercased "running shoes". -/
theorem C1_witness :
    (parse (str "search for Running Shoes")).command =
      some { type := CmdType.search, action := str "search",
             parameters := Params.query
               (trim (replaceFirst (str "search for")
                 (trim (jsLower (str "search for Running Shoes"))))),
             confidence := 9 } ∧
    trim (replaceFirst (str "search for")
        (trim (jsLower (str "search for Running Shoes")))) =
      str "running shoes" :=
  ⟨C1_search_query (str "search for Running Shoes") (str "search for")
      (by decide) (by decide) (by decide) (by decide),
   by decide⟩

/-! ## Claim C2 -/

/-- C2: an input satisfying both the navigation rule and the search rule
(both helpers fire on the lowercased, trimmed input) is always classified
as a navigation command by parse, never as a search command. -/
theorem C2_nav_wins (input : Str)
    (hnav : (parseNavigation (trim (jsLower input))).isSome = true)
    (hsearch : (parseSearch (trim (jsLower input))).isSome = true) :
    ∃ c, (parse input).command = some c ∧ c.type = CmdType.navigation := by
  obtain ⟨c, hc⟩ := Option.isSome_iff_exists.mp hnav
  refine ⟨c, parse_of_nav hc, ?_⟩
  obtain ⟨kw, _, _, lp, _, _, hceq⟩ := parseNavigation_spec hc
  rw [hceq]

/-- C2 witness: "show me cart" satisfies both rules ("show me" is in both
lead-in sets, "cart" is a location and a non-trivial query) and resolves
as navigation. -/
theorem C2_witness :
    (parseNavigation (trim (jsLower (str "show me cart")))).isSome = true ∧
    (parseSearch (trim (jsLower (str "show me cart")))).isSome = true ∧
    ∃ c, (parse (str "show me cart")).command = some c ∧
      c.type = CmdType.navigation :=
  ⟨by decide, by decide, C2_nav_wins (str "show me cart") (by decide) (by decide)⟩

/-! ## Claim C4 -/

/-- C4: when the first navigation lead-in contained in the lowercased,
trimmed input strips to a remainder whose first recognized location alias
maps to a path, parse returns a navigation command carrying exactly that
canonical path with confidence 0.9 (stored as 9 tenths); the path depends
only on the table entry, so aliases sharing a canonical path produce the
same command. -/
theorem C4_nav_alias_path (input kw loc path : Str)
    (hkw : navigationKeywords.find?
        (fun k => strIncludes (trim (jsLower input)) k) = some kw)
    (hloc : locations.find?
        (fun lp => strIncludes
          (trim (replaceFirst kw (trim (jsLower input)))) lp.1) =
        some (loc, path)) :
    (parse input).command =
      some { type := CmdType.navigation, action := str "navigate",
             parameters := Params.path path, confidence := 9 } :=
  parse_of_nav (parseNavigation_eq_of_find hkw hloc)

/-- C4 witness: "go to shop" and "go to store" both yield the products
path. -/
theorem C4_witness :
    (parse (str "go to shop")).command =
      some { type := CmdType.navigation, action := str "navigate",
             parameters := Params.path (str "/products"), confidence := 9 } ∧
    (parse (str "go to store")).command =
      some { type := CmdType.navigation, action := str "navigate",
             parameters := Params.path (str "/products"), confidence := 9 } :=
  ⟨C4_nav_alias_path (str "go to shop") (str "go to") (str "shop")
      (str "/products") (by decide) (by decide),
   C4_nav_alias_path (str "go to store") (str "go to") (str "store")
      (str "/products") (by decide) (by decide)⟩

/-! ## Claim C5 -/

theorem jsOr_nil (a : Str) : jsOr a [] = a := by
  unfold jsOr
  split <;> simp_all

/-- C5 counterexample: the two-branch precedence stated by the claim has
no select case.  A visible select element whose rendered option text is "Option A",
with no aria-label and no title, is labelled "Select dropdown" by the
code, while the claimed precedence yields "Option A". -/
theorem C5_counterexample :
    getElementText selOptionA = str "Select dropdown" ∧
    claimedTextPrecedence selOptionA = str "Option A" ∧
    str "Select dropdown" ≠ str "Option A" := by
  decide

/-- C5 (amended): the extracted label is the first non-empty candidate in
precedence order with three branches — input elements: placeholder, value,
aria-label, title; select elements: aria-label, title, then the fixed
label "Select dropdown"; every other element: trimmed inner text, trimmed
text content, aria-label, title, alt — truncated to MAX_TEXT_LENGTH, so
the label and every scanned descriptor text have length at most 100. -/
theorem C5_text_precedence (el : PageElement) (page : List PageElement)
    (d : DOMElement) :
    getElementText el = (firstNonEmpty (textCandidates el)).take MAX_TEXT_LENGTH ∧
    (getElementText el).length ≤ MAX_TEXT_LENGTH ∧
    (d ∈ (collectInteractiveElements page).2 → d.text.length ≤ MAX_TEXT_LENGTH) := by
  have hmain : ∀ e : PageElement,
      getElementText e = (firstNonEmpty (textCandidates e)).take MAX_TEXT_LENGTH := by
    intro e
    unfold getElementText textCandidates
    cases e.kind <;>
      simp only [firstNonEmpty_cons, firstNonEmpty_nil, jsOr_nil]
  have hlen : ∀ e : PageElement, (getElementText e).length ≤ MAX_TEXT_LENGTH := by
    intro e
    rw [hmain e]
    exact List.length_take_le _ _
  refine ⟨hmain el, hlen el, ?_⟩
  intro hd
  unfold collectInteractiveElements at hd
  obtain ⟨p, -, hdp⟩ := List.mem_map.mp hd
  rw [← hdp]
  exact hlen p.2

/-! ## Claim C7 -/

/-- C7 counterexample: after scanning two visible buttons (identifiers 0
and 1), hiding the second one and re-scanning, the most recent scan
contains only identifier 0, yet a CLICK on the stale identifier 1 still
validates, because the hidden element still carries the attribute in the
document. -/
theorem C7_counterexample :
    (collectInteractiveElements [btnA, btnB]).1 =
      [{ btnA with agentId := some 0 }, { btnB with agentId := some 1 }] ∧
    (collectInteractiveElements stalePage).2.map DOMElement.id = [0] ∧
    validateAction (collectInteractiveElements stalePage).1
      { action := ActionKind.CLICK, elementId := some 1 } = true := by
  decide

/-- C7 (amended): validateAction accepts every DONE action; it accepts a
CLICK or TYPE action exactly when some element of the current document
carries the given scan identifier, and rejects an action with no
elementId.  An identifier absent from the most recent scan may still
validate when an element written by an earlier scan is still in the
document. -/
theorem C7_validate_resolves (doc : List PageElement) (a : AgentAction) :
    validateAction doc a = true ↔
      (a.action = ActionKind.DONE ∨
       ∃ id, a.elementId = some id ∧ resolvesId doc id = true) := by
  by_cases hd : a.action = ActionKind.DONE
  · simp [validateAction, hd]
  · cases he : a.elementId with
    | none => simp [validateAction, hd, he]
    | some id => simp [validateAction, hd, he]

/-! ## Claim C3 -/

/-- C3: with the planner stubbed to always answer CLICK on a button that
is present and valid on every scan, executeCommand performs exactly
MAX_STEPS = 6 iterations (6 scans, 6 planner calls, 6 executed actions,
6 history entries) and then fails with the dedicated max-steps message;
and for every environment whatsoever the number of executed actions and
of planner calls never exceeds MAX_STEPS. -/
theorem C3_max_steps :
    executeCommand initNavState (str "keep clicking") stubClickEnv =
      { state := { isProcessing := false,
                   history := List.replicate MAX_STEPS clickAct0,
                   error := some msgMaxStepsExceeded,
                   lastAction := some clickAct0 },
        stats := { scans := MAX_STEPS, backendCalls := MAX_STEPS,
                   executedActions := MAX_STEPS },
        warnings := [] } ∧
    ∀ (st : UseNavigatorState) (q : Str) (env : Nat → StepEnv),
      (executeCommand st q env).stats.executedActions ≤ MAX_STEPS ∧
      (executeCommand st q env).stats.backendCalls ≤ MAX_STEPS := by
  constructor
  · decide
  · intro st q env
    by_cases hp : st.isProcessing = true
    · unfold executeCommand
      rw [hp]
      simp [MAX_STEPS]
    · have hp' : st.isProcessing = false := by
        revert hp
        cases st.isProcessing <;> simp
      by_cases hq : sanitizeInput q = []
      · unfold executeCommand
        rw [hp']
        simp [hq, MAX_STEPS]
      · rw [executeCommand_run st q env hp' hq]
        obtain ⟨d1, d2, d3, h1, h2, h3, heq⟩ :=
          runLoop_stats_shape env MAX_STEPS 0
            { st with isProcessing := true, error := Option.none,
                      lastAction := Option.none } st.history {}
        rcases hr : runLoop env MAX_STEPS 0
            { st with isProcessing := true, error := Option.none,
                      lastAction := Option.none } st.history {} with ⟨exit, stats⟩
        rw [hr] at heq
        simp only at heq
        cases exit <;> simp only <;> rw [heq] <;> constructor <;> simp <;> omega

/-! ## Claim C8 -/

theorem executeCommand_busy_eq (st : UseNavigatorState) (q : Str)
    (env : Nat → StepEnv) (hp : st.isProcessing = true) :
    executeCommand st q env =
      { state := st, stats := {}, warnings := [msgAlreadyProcessing] } := by
  unfold executeCommand
  rw [hp]
  simp

theorem executeCommand_empty_eq (st : UseNavigatorState) (q : Str)
    (env : Nat → StepEnv) (hp : st.isProcessing = false)
    (hq : sanitizeInput q = []) :
    executeCommand st q env =
      { state := { st with error := some msgEmptyCommand }, stats := {},
        warnings := [] } := by
  unfold executeCommand
  rw [hp]
  simp [hq]

/-- C8: an invocation while already processing returns with the state
(including history) untouched, zero scans, zero planner calls, zero
executed actions, and only the console warning surfaced; an invocation
whose sanitized query is empty sets the empty-command error message and
otherwise changes nothing — again zero scans and zero planner calls. -/
theorem C8_entry_guards (st : UseNavigatorState) (q : Str) (env : Nat → StepEnv) :
    (st.isProcessing = true →
      executeCommand st q env =
        { state := st, stats := {}, warnings := [msgAlreadyProcessing] }) ∧
    (st.isProcessing = false → sanitizeInput q = [] →
      executeCommand st q env =
        { state := { st with error := some msgEmptyCommand }, stats := {},
          warnings := [] }) :=
  ⟨fun hp => executeCommand_busy_eq st q env hp,
   fun hp hq => executeCommand_empty_eq st q env hp hq⟩

/-- C8 witness: both guards evaluated concretely — a busy state with a
valid query, and an idle state with a whitespace-only query. -/
theorem C8_witness :
    executeCommand busyNavState (str "go to cart") stubClickEnv =
      { state := busyNavState, stats := {},
        warnings := [msgAlreadyProcessing] } ∧
    executeCommand initNavState (str "   ") stubClickEnv =
      { state := { initNavState with error := some msgEmptyCommand },
        stats := {}, warnings := [] } :=
  ⟨(C8_entry_guards busyNavState (str "go to cart") stubClickEnv).1 rfl,
   (C8_entry_guards initNavState (str "   ") stubClickEnv).2 rfl (by decide)⟩

/-! ## Claim C6 -/

/-- C6: if the very first scan of an invocation that passes the entry
guards yields no interactive element, the command fails immediately with
the no-interactive-elements message — one scan, zero planner calls, zero
executed actions, history untouched. -/
theorem C6_empty_scan (st : UseNavigatorState) (q : Str) (env : Nat → StepEnv)
    (hp : st.isProcessing = false) (hq : sanitizeInput q ≠ [])
    (hscan : ((collectInteractiveElements (env 0).page).2).length = 0) :
    executeCommand st q env =
      { state := { isProcessing := false, history := st.history,
                   error := some msgNoInteractiveElements,
                   lastAction := Option.none },
        stats := { scans := 1, backendCalls := 0, executedActions := 0 },
        warnings := [] } := by
  rw [executeCommand_run st q env hp hq]
  rw [show MAX_STEPS = 5 + 1 from rfl,
      runLoop_one_empty env 5 0 _ _ _ hscan]
  rfl

/-- C6 witness: the statement evaluated on the empty-page environment. -/
theorem C6_witness :
    executeCommand initNavState (str "add socks to cart") emptyScanEnv =
      { state := { isProcessing := false, history := initNavState.history,
                   error := some msgNoInteractiveElements,
                   lastAction := Option.none },
        stats := { scans := 1, backendCalls := 0, executedActions := 0 },
        warnings := [] } :=
  C6_empty_scan initNavState (str "add socks to cart") emptyScanEnv
    rfl (by decide) (by decide)

/-! ## Claim C9 -/

/-- C9: for every invocation started from an idle state, over any
environment whose transport failures carry non-empty messages, the final
state has the processing flag cleared — a new command can be issued — and
any surfaced error message is non-empty (human-readable): internal errors
use the fixed configuration messages and thrown values pass through
formatError. -/
theorem C9_failure_recovery (st : UseNavigatorState) (q : Str)
    (env : Nat → StepEnv) (hp : st.isProcessing = false)
    (hfetch : ∀ j e, (env j).fetch = FetchOutcome.fail e → formatError e ≠ []) :
    (executeCommand st q env).state.isProcessing = false ∧
    ∀ m, (executeCommand st q env).state.error = some m → m ≠ [] := by
  by_cases hq : sanitizeInput q = []
  · rw [executeCommand_empty_eq st q env hp hq]
    refine ⟨hp, ?_⟩
    intro m hm
    simp only at hm
    injection hm with hm2
    rw [← hm2]
    decide
  · rw [executeCommand_run st q env hp hq]
    rcases hr : runLoop env MAX_STEPS 0
        { st with isProcessing := true, error := Option.none,
                  lastAction := Option.none } st.history {} with ⟨exit, stats⟩
    cases exit with
    | finished st2 =>
      have hf := runLoop_finished_spec env MAX_STEPS 0
        { st with isProcessing := true, error := Option.none,
                  lastAction := Option.none } st.history {} st2
        (by rw [hr])
      refine ⟨hf.1, ?_⟩
      intro m hm
      simp only at hm
      rw [show st2.error = (Option.none : Option Str) from hf.2] at hm
      cases hm
    | thrown e st2 =>
      have ht := runLoop_thrown_msg env hfetch MAX_STEPS 0
        { st with isProcessing := true, error := Option.none,
                  lastAction := Option.none } st.history {} e st2
        (by rw [hr])
      refine ⟨rfl, ?_⟩
      intro m hm
      simp only at hm
      injection hm with hm2
      rw [← hm2]
      exact ht

/-- C9 witness: the stub environment never fails its fetch, the run ends
in the max-steps error, and afterwards the processing flag is cleared and
the surfaced message is non-empty. -/
theorem C9_witness :
    (executeCommand initNavState (str "keep clicking") stubClickEnv).state.isProcessing = false ∧
    ∀ m, (executeCommand initNavState (str "keep clicking") stubClickEnv).state.error = some m →
      m ≠ [] :=
  C9_failure_recovery initNavState (str "keep clicking") stubClickEnv rfl
    (fun j e h => by simp [stubClickEnv] at h)

/-! ## Claim C10 -/

theorem parseCommandOpt_param_lower {L : Str} {c : Command} {s : Str}
    (hL : ∀ n ∈ L, jsLowerNat n = n)
    (h : parseCommandOpt L = some c)
    (hp : extractedParam c.parameters = some s) :
    ∀ n ∈ s, jsLowerNat n = n := by
  unfold parseCommandOpt at h
  split at h
  · -- exact-phrase table: parameters are none or a path, never extracted
    rename_i c0 hex
    cases h
    obtain ⟨p, hmem, -, hpc⟩ := findExactMatch_spec hex
    have hnone : ∀ q ∈ exactMatches, extractedParam q.2.parameters = Option.none := by
      decide
    rw [← hpc, hnone p hmem] at hp
    cases hp
  · split at h
    · -- navigation: path parameter, never extracted
      rename_i c0 hnav
      cases h
      obtain ⟨kw, -, -, lp, -, -, hceq⟩ := parseNavigation_spec hnav
      rw [hceq] at hp
      cases hp
    · split at h
      · -- search: query is the trimmed remainder of the lowercased input
        rename_i c0 hsearch
        cases h
        obtain ⟨kw, -, -, -, hceq⟩ := parseSearch_spec hsearch
        rw [hceq] at hp
        simp only [extractedParam, Option.some.injEq] at hp
        intro n hn
        rw [← hp] at hn
        exact hL n (mem_of_mem_replaceFirst kw L (mem_of_mem_trim hn))
      · split at h
        · -- category: parameter drawn from the fixed lowercase vocabulary
          rename_i c0 hcat
          cases h
          obtain ⟨cat, hcatmem, hceq⟩ := parseCategory_spec hcat
          rw [hceq] at hp
          simp only [extractedParam, Option.some.injEq] at hp
          have hlow : ∀ q ∈ categories, ∀ n ∈ q, jsLowerNat n = n := by
            decide
          intro n hn
          rw [← hp] at hn
          exact hlow cat hcatmem n hn
        · split at h
          · -- cart: product name is the trimmed remainder
            rename_i c0 hcart
            cases h
            obtain ⟨kw, -, -, hceq⟩ := parseCart_spec hcart
            rw [hceq] at hp
            simp only [extractedParam, Option.some.injEq] at hp
            intro n hn
            rw [← hp] at hn
            exact hL n (mem_of_mem_replaceFirst kw L (mem_of_mem_trim hn))
          · split at h
            · -- help: no parameters
              rename_i c0 hhelp
              cases h
              rw [parseHelp_spec hhelp] at hp
              cases hp
            · -- product: name captured from the lowercased input
              obtain ⟨alts, -, cap, hcap, hceq⟩ := parseProduct_spec h
              rw [hceq] at hp
              simp only [extractedParam, Option.some.injEq] at hp
              intro n hn
              rw [← hp] at hn
              exact hL n
                (mem_of_mem_regexFindCapture alts L cap hcap (mem_of_mem_trim hn))

/-- C10: parsing is insensitive to input case and outer whitespace — the
command of parse applied to any input equals the command of parse applied
to the lowercased, trimmed input; only originalText keeps the input
verbatim; and every extracted free-text parameter (search query, cart
product name, category name, product-info name) is made of code points
fixed by lowercasing, i.e. contains no uppercase ASCII letter. -/
theorem C10_lowercase_normalization (input : Str) :
    (parse input).command = (parse (trim (jsLower input))).command ∧
    (parse input).originalText = input ∧
    ∀ c s, (parse input).command = some c →
      extractedParam c.parameters = some s →
      ∀ n ∈ s, jsLowerNat n = n := by
  refine ⟨?_, ?_, ?_⟩
  · rw [parse_command_eq, parse_command_eq, trim_jsLower_trim]
  · unfold parse
    cases hc : parseCommandOpt (trim (jsLower input)) <;> simp [hc]
  · intro c s hc hp
    rw [parse_command_eq] at hc
    exact parseCommandOpt_param_lower
      (fun n hn => mem_jsLower_fixed (mem_of_mem_trim hn)) hc hp

/-- C10 witness: evaluated on "  Search for SHOES ", whose command equals
the command of the lowercased, trimmed input and whose query "shoes"
contains no uppercase letter. -/
theorem C10_witness :
    (parse (str "  Search for SHOES ")).command =
      (parse (trim (jsLower (str "  Search for SHOES ")))).command ∧
    (parse (str "  Search for SHOES ")).command =
      some { type := CmdType.search, action := str "search",
             parameters := Params.query (str "shoes"), confidence := 9 } ∧
    ∀ n ∈ str "shoes", jsLowerNat n = n :=
  ⟨(C10_lowercase_normalization (str "  Search for SHOES ")).1,
   by decide,
   fun n hn =>
     (C10_lowercase_normalization (str "  Search for SHOES ")).2.2
       { type := CmdType.search, action := str "search",
         parameters := Params.query (str "shoes"), confidence := 9 }
       (str "shoes") (by decide) (by decide) n hn⟩

/-- C5 witness: the amended statement evaluated on a one-element page
holding the select fixture, whose descriptor text is the fixed select
label and respects the length bound. -/
theorem C5_witness :
    getElementText selOptionA =
      (firstNonEmpty (textCandidates selOptionA)).take MAX_TEXT_LENGTH ∧
    (getElementText selOptionA).length ≤ MAX_TEXT_LENGTH ∧
    (mkDescriptor 0 selOptionA).text.length ≤ MAX_TEXT_LENGTH :=
  ⟨(C5_text_precedence selOptionA [selOptionA] (mkDescriptor 0 selOptionA)).1,
   (C5_text_precedence selOptionA [selOptionA] (mkDescriptor 0 selOptionA)).2.1,
   (C5_text_precedence selOptionA [selOptionA] (mkDescriptor 0 selOptionA)).2.2
     (by decide)⟩
